import Mathlib

/-!
Verification of the RoboID Protocol core (Verified Action Pipeline) against a
shallow Lean embedding of the Python sources.

Conventions of the embedding:
- byte strings are `List Nat` with entries below 256;
- Python `hashlib.sha256` is implemented bit-faithfully over `Nat` (FIPS 180-4),
  with 32-bit arithmetic carried out modulo 2^32;
- wall-clock reads (`time.time()`, `datetime.now`) are passed in as explicit
  `Int` parameters; UTC calendar dates are modelled as integer day numbers, so
  the `%Y-%m-%d` string arithmetic of `datetime` becomes integer arithmetic;
- floating point scores are modelled as real numbers;
- Python strings are modelled as Lean `String`, and `str.encode()` as the list
  of character code points (exact for the ASCII data the protocol produces);
- fallible operations return `Except`/`Option`.
-/

namespace RoboID

/-! ## SHA-256 (hashlib.sha256), FIPS 180-4 over `Nat` -/

/-- 2^32, the modulus of the 32-bit arithmetic of SHA-256. -/
def M32 : Nat := 4294967296

/-- Addition modulo 2^32. -/
def add32 (a b : Nat) : Nat := (a + b) % M32

/-- Right rotation of a 32-bit word. -/
def rotr32 (w n : Nat) : Nat := (n >>> w) ||| ((n <<< (32 - w)) % M32)

/-- SHA-256 Ch function. -/
def shaCh (x y z : Nat) : Nat := (x &&& y) ^^^ ((x ^^^ 4294967295) &&& z)

/-- SHA-256 Maj function. -/
def shaMaj (x y z : Nat) : Nat := (x &&& y) ^^^ (x &&& z) ^^^ (y &&& z)

/-- SHA-256 big Sigma-0. -/
def bigSigma0 (x : Nat) : Nat := rotr32 2 x ^^^ rotr32 13 x ^^^ rotr32 22 x

/-- SHA-256 big Sigma-1. -/
def bigSigma1 (x : Nat) : Nat := rotr32 6 x ^^^ rotr32 11 x ^^^ rotr32 25 x

/-- SHA-256 small sigma-0. -/
def smallSigma0 (x : Nat) : Nat := rotr32 7 x ^^^ rotr32 18 x ^^^ (x >>> 3)

/-- SHA-256 small sigma-1. -/
def smallSigma1 (x : Nat) : Nat := rotr32 17 x ^^^ rotr32 19 x ^^^ (x >>> 10)

/-- SHA-256 round constants (decimal). -/
def K256 : List Nat :=
  [1116352408, 1899447441, 3049323471, 3921009573, 961987163, 1508970993,
   2453635748, 2870763221, 3624381080, 310598401, 607225278, 1426881987,
   1925078388, 2162078206, 2614888103, 3248222580, 3835390401, 4022224774,
   264347078, 604807628, 770255983, 1249150122, 1555081692, 1996064986,
   2554220882, 2821834349, 2952996808, 3210313671, 3336571891, 3584528711,
   113926993, 338241895, 666307205, 773529912, 1294757372, 1396182291,
   1695183700, 1986661051, 2177026350, 2456956037, 2730485921, 2820302411,
   3259730800, 3345764771, 3516065817, 3600352804, 4094571909, 275423344,
   430227734, 506948616, 659060556, 883997877, 958139571, 1322822218,
   1537002063, 1747873779, 1955562222, 2024104815, 2227730452, 2361852424,
   2428436474, 2756734187, 3204031479, 3329325298]

/-- SHA-256 initial hash state (decimal). -/
def H256 : List Nat :=
  [1779033703, 3144134277, 1013904242, 2773480762,
   1359893119, 2600822924, 528734635, 1541459225]

/-- Big-endian bytes of the 64-bit message length field. -/
def lenBytes64 (n : Nat) : List Nat :=
  [(n >>> 56) % 256, (n >>> 48) % 256, (n >>> 40) % 256, (n >>> 32) % 256,
   (n >>> 24) % 256, (n >>> 16) % 256, (n >>> 8) % 256, n % 256]

/-- SHA-256 message padding: append 0x80, zeros to 56 mod 64, then the bit length. -/
def shaPad (msg : List Nat) : List Nat :=
  msg ++ [128] ++ List.replicate ((119 - (msg.length % 64)) % 64) 0 ++ lenBytes64 (msg.length * 8)

/-- Group bytes into big-endian 32-bit words. -/
def toWordsBE : List Nat → List Nat
  | a :: b :: c :: d :: rest => (((a * 256 + b) * 256 + c) * 256 + d) :: toWordsBE rest
  | _ => []

/-- Split a word list into 16-word blocks. -/
def toBlocks : List Nat → List (List Nat)
  | [] => []
  | w :: ws => ((w :: ws).take 16) :: toBlocks ((w :: ws).drop 16)
termination_by l => l.length
decreasing_by simp [List.length_drop]; omega

/-- Next word of the SHA-256 message schedule, given the words so far. -/
def nextScheduleWord (ws : List Nat) : Nat :=
  add32 (add32 (smallSigma1 (ws.getD (ws.length - 2) 0)) (ws.getD (ws.length - 7) 0))
        (add32 (smallSigma0 (ws.getD (ws.length - 15) 0)) (ws.getD (ws.length - 16) 0))

/-- Extend the schedule by k further words. -/
def extendSchedule : Nat → List Nat → List Nat
  | 0, ws => ws
  | k + 1, ws => extendSchedule k (ws ++ [nextScheduleWord ws])

/-- One SHA-256 compression round on the 8-word working state. -/
def shaRound (st : List Nat) (k w : Nat) : List Nat :=
  match st with
  | [a, b, c, d, e, f, g, h] =>
    let t1 := add32 h (add32 (bigSigma1 e) (add32 (shaCh e f g) (add32 k w)))
    let t2 := add32 (bigSigma0 a) (shaMaj a b c)
    [add32 t1 t2, a, b, c, add32 d t1, e, f, g]
  | _ => st

/-- Compress one 16-word block into the hash state. -/
def compressBlock (h : List Nat) (block : List Nat) : List Nat :=
  let ws := extendSchedule 48 block
  let st := (K256.zip ws).foldl (fun st kw => shaRound st kw.1 kw.2) h
  (h.zip st).map (fun p => add32 p.1 p.2)

/-- Big-endian bytes of a 32-bit word. -/
def wordToBytes (w : Nat) : List Nat :=
  [(w >>> 24) % 256, (w >>> 16) % 256, (w >>> 8) % 256, w % 256]

/-- SHA-256 of a byte string (the digest, as 32 bytes). -/
def sha256 (msg : List Nat) : List Nat :=
  ((toBlocks (toWordsBE (shaPad msg))).foldl compressBlock H256).flatMap wordToBytes

/-! ## Hex encoding and content-addressed ids (src/crypto/keys.py) -/

/-- The sixteen lowercase hex digit characters. -/
def hexChars : List Char := "0123456789abcdef".data

/-- The two hex characters of one byte, as produced by Python bytes.hex(). -/
def byteToHexChars (b : Nat) : List Char :=
  [hexChars.getD (b / 16) '0', hexChars.getD (b % 16) '0']

/-- Lowercase hex string of a byte string (Python bytes.hex()). -/
def bytesToHex (bs : List Nat) : String :=
  String.mk (bs.flatMap byteToHexChars)

/-- Byte encoding of a string (str.encode(); code points, exact for ASCII). -/
def strBytes (s : String) : List Nat := s.data.map Char.toNat

/-- The colon-joined content string hashed by generate_action_id. -/
def actionIdContent (did action_type : String) (timestamp : Int) (entropy : List Nat) : String :=
  did ++ ":" ++ action_type ++ ":" ++ toString timestamp ++ ":" ++ bytesToHex entropy

/-- generate_action_id from src/crypto/keys.py.  The Python function draws 8
random entropy bytes when none are supplied; the entropy is an explicit
parameter here.  The id is "act_" followed by the hex of the first 12 bytes of
the SHA-256 digest of the content string. -/
def generate_action_id (did action_type : String) (timestamp : Int) (entropy : List Nat) : String :=
  "act_" ++ bytesToHex ((sha256 (strBytes (actionIdContent did action_type timestamp entropy))).take 12)

/-! ### Injectivity facts about the id encoding -/

theorem mem_wordToBytes_lt {b w : Nat} (h : b ∈ wordToBytes w) : b < 256 := by
  simp only [wordToBytes, List.mem_cons, List.not_mem_nil, or_false] at h
  rcases h with h | h | h | h <;> subst h <;> exact Nat.mod_lt _ (by norm_num)

theorem sha256_bytes_lt (msg : List Nat) : ∀ b ∈ sha256 msg, b < 256 := by
  intro b hb
  simp only [sha256, List.mem_flatMap] at hb
  obtain ⟨w, _, hw⟩ := hb
  exact mem_wordToBytes_lt hw

theorem hexChars_getD_inj : ∀ a < 16, ∀ b < 16,
    hexChars.getD a '0' = hexChars.getD b '0' → a = b := by decide

theorem byteToHexChars_inj {a b : Nat} (ha : a < 256) (hb : b < 256)
    (h : byteToHexChars a = byteToHexChars b) : a = b := by
  simp only [byteToHexChars, List.cons.injEq, and_true] at h
  obtain ⟨h1, h2⟩ := h
  have e1 : a / 16 = b / 16 := hexChars_getD_inj (a / 16) (by omega) (b / 16) (by omega) h1
  have e2 : a % 16 = b % 16 := hexChars_getD_inj (a % 16) (by omega) (b % 16) (by omega) h2
  omega

theorem flatMapHex_inj : ∀ (xs ys : List Nat), (∀ b ∈ xs, b < 256) → (∀ b ∈ ys, b < 256) →
    xs.flatMap byteToHexChars = ys.flatMap byteToHexChars → xs = ys
  | [], [], _, _, _ => rfl
  | [], y :: ys, _, _, h => by
    simp only [List.flatMap_nil, List.flatMap_cons, byteToHexChars, List.cons_append] at h
    exact absurd h.symm (by simp)
  | x :: xs, [], _, _, h => by
    simp only [List.flatMap_nil, List.flatMap_cons, byteToHexChars, List.cons_append] at h
    exact absurd h (by simp)
  | x :: xs, y :: ys, hx, hy, h => by
    simp only [List.flatMap_cons, byteToHexChars, List.cons_append, List.nil_append,
      List.cons.injEq] at h
    obtain ⟨h1, h2, h3⟩ := h
    have hxy : x = y := byteToHexChars_inj (hx x (by simp)) (hy y (by simp))
      (by simp only [byteToHexChars, h1, h2])
    have hrest : xs = ys := flatMapHex_inj xs ys
      (fun b hb => hx b (by simp [hb])) (fun b hb => hy b (by simp [hb])) h3
    rw [hxy, hrest]

theorem string_data_inj {s t : String} (h : s.data = t.data) : s = t := by
  cases s; cases t; exact congrArg String.mk h

theorem bytesToHex_inj (xs ys : List Nat) (hx : ∀ b ∈ xs, b < 256)
    (hy : ∀ b ∈ ys, b < 256) (h : bytesToHex xs = bytesToHex ys) : xs = ys := by
  apply flatMapHex_inj xs ys hx hy
  simp only [bytesToHex] at h
  injection h

theorem string_append_left_cancel {s t u : String} (h : s ++ t = s ++ u) : t = u := by
  have hd : s.data ++ t.data = s.data ++ u.data := by
    have h2 := congrArg String.data h
    simpa [String.data_append] using h2
  exact string_data_inj (List.append_cancel_left hd)

/-- C8 counterexample: the colon-joined content encoding of generate_action_id
is ambiguous, so two input tuples that differ in the actorId and kind
components (timestamp and entropy equal) produce the identical action id:
(did "a:b", kind "c") and (did "a", kind "b:c") both hash the content string
"a:b:c:0:0102". -/
theorem generate_action_id_not_injective_cex :
    generate_action_id "a:b" "c" 0 [1, 2] = generate_action_id "a" "b:c" 0 [1, 2] ∧
      ("a:b", "c", (0 : Int), [1, 2]) ≠ ("a", "b:c", (0 : Int), ([1, 2] : List Nat)) :=
  ⟨rfl, by decide⟩

/-- C8 (amended): id generation is deterministic — identical inputs yield the
identical id — and, more precisely, the id depends on the inputs only through
the truncated 12-byte SHA-256 digest of the colon-joined content string
"did:kind:timestamp:entropyHex": two calls yield the same id exactly when those
truncated digests coincide.  Universal distinctness of ids for distinct input
tuples fails (see the counterexample: a DID containing a colon makes the
content encoding collide). -/
theorem generate_action_id_eq_iff (a1 k1 : String) (t1 : Int) (e1 : List Nat)
    (a2 k2 : String) (t2 : Int) (e2 : List Nat) :
    generate_action_id a1 k1 t1 e1 = generate_action_id a2 k2 t2 e2 ↔
      (sha256 (strBytes (actionIdContent a1 k1 t1 e1))).take 12 =
        (sha256 (strBytes (actionIdContent a2 k2 t2 e2))).take 12 := by
  constructor
  · intro h
    apply bytesToHex_inj
    · intro b hb
      exact sha256_bytes_lt _ b (List.take_subset _ _ hb)
    · intro b hb
      exact sha256_bytes_lt _ b (List.take_subset _ _ hb)
    · exact string_append_left_cancel (s := "act_") h
  · intro h
    simp only [generate_action_id, h]

/-! ## MerkleTree (src/crypto/keys.py)

The tree-shape functions are stated over an arbitrary hash function so that the
inclusion-proof completeness argument is independent of SHA-256; the
source-named definitions instantiate them with sha256, matching the Python
class, which calls hashlib.sha256 directly. -/

/-- One parent layer of the tree: pairs are concatenated then hashed; an odd
trailing node is paired with itself (the Python loop with
right = current_layer[i+1] if i+1 < len else left). -/
def pairUp (h : List Nat → List Nat) : List (List Nat) → List (List Nat)
  | [] => []
  | [x] => [h (x ++ x)]
  | x :: y :: rest => h (x ++ y) :: pairUp h rest

theorem pairUp_length (h : List Nat → List Nat) :
    ∀ L : List (List Nat), (pairUp h L).length = (L.length + 1) / 2
  | [] => by simp [pairUp]
  | [_] => by simp [pairUp]
  | _ :: _ :: rest => by
    simp only [pairUp, List.length_cons, pairUp_length h rest]
    omega

/-- The layer list of _build_tree starting from an already-hashed layer:
the while loop keeps appending pairUp layers until one node remains. -/
def buildLayersFrom (h : List Nat → List Nat) (cur : List (List Nat)) :
    List (List (List Nat)) :=
  if cur.length ≤ 1 then [cur]
  else cur :: buildLayersFrom h (pairUp h cur)
termination_by cur.length
decreasing_by simp only [pairUp_length]; omega

theorem buildLayersFrom_ne_nil (h : List Nat → List Nat) (cur : List (List Nat)) :
    buildLayersFrom h cur ≠ [] := by
  rw [buildLayersFrom]
  split <;> simp

/-- MerkleTree._build_tree: layers of the tree over the given leaves.  The
leaves are individually hashed first; an empty leaf list yields the single
layer [[sha256 []]]. -/
def MerkleTree.buildTree (leaves : List (List Nat)) : List (List (List Nat)) :=
  if leaves = [] then [[sha256 []]]
  else buildLayersFrom sha256 (leaves.map sha256)

/-- MerkleTree.root: the single node of the topmost layer. -/
def rootOfLayers (layers : List (List (List Nat))) : List Nat :=
  if layers = [] then sha256 [] else (layers.getLastD []).getD 0 []

def MerkleTree.root (leaves : List (List Nat)) : List Nat :=
  rootOfLayers (MerkleTree.buildTree leaves)

/-- One (sibling, position) entry of get_proof at a given layer: an even index
takes the right neighbour (or itself, as 'right', when it is the odd last
node), an odd index takes the left neighbour. -/
def proofStep (layer : List (List Nat)) (i : Nat) : List Nat × String :=
  let sib := if i % 2 = 0 then i + 1 else i - 1
  let pos := if i % 2 = 0 then "right" else "left"
  if sib < layer.length then (layer.getD sib [], pos) else (layer.getD i [], "right")

/-- The loop of get_proof over self.layers[:-1], halving the index per layer. -/
def getProofLoop : List (List (List Nat)) → Nat → List (List Nat × String)
  | [], _ => []
  | layer :: rest, i => proofStep layer i :: getProofLoop rest (i / 2)

/-- MerkleTree.get_proof (the Python method raises IndexError for an index
beyond the leaves; the claims only use in-range indices). -/
def MerkleTree.getProof (leaves : List (List Nat)) (index : Nat) :
    List (List Nat × String) :=
  getProofLoop (MerkleTree.buildTree leaves).dropLast index

/-- One verification step: 'left' siblings are prepended, others appended,
then hashed. -/
def applyStep (h : List Nat → List Nat) (cur : List Nat) (p : List Nat × String) :
    List Nat :=
  if p.2 = "left" then h (p.1 ++ cur) else h (cur ++ p.1)

def foldProof (h : List Nat → List Nat) (cur : List Nat) :
    List (List Nat × String) → List Nat
  | [] => cur
  | p :: rest => foldProof h (applyStep h cur p) rest

/-- MerkleTree.verify_proof: recompute the path from the hashed leaf and
compare with the claimed root. -/
def MerkleTree.verifyProof (leaf : List Nat) (proof : List (List Nat × String))
    (root : List Nat) : Bool :=
  foldProof sha256 (sha256 leaf) proof == root

/-! ### Completeness of inclusion proofs -/

theorem applyStep_left (h : List Nat → List Nat) (cur sib : List Nat) :
    applyStep h cur (sib, "left") = h (sib ++ cur) := by
  simp [applyStep]

theorem applyStep_right (h : List Nat → List Nat) (cur sib : List Nat) :
    applyStep h cur (sib, "right") = h (cur ++ sib) := by
  simp [applyStep]

theorem proofStep_zero (x y : List Nat) (rest : List (List Nat)) :
    proofStep (x :: y :: rest) 0 = (y, "right") := by
  simp only [proofStep, List.length_cons]
  norm_num

theorem proofStep_one (x y : List Nat) (rest : List (List Nat)) :
    proofStep (x :: y :: rest) 1 = (x, "left") := by
  simp only [proofStep, List.length_cons]
  norm_num

theorem proofStep_single (x : List Nat) : proofStep [x] 0 = (x, "right") := by
  simp only [proofStep, List.length_cons]
  norm_num

theorem proofStep_cons_cons (x y : List Nat) (rest : List (List Nat)) (j : Nat) :
    proofStep (x :: y :: rest) (j + 2) = proofStep rest j := by
  simp only [proofStep, Nat.add_mod_right, List.length_cons]
  by_cases hp : j % 2 = 0
  · simp only [if_pos hp]
    by_cases hlt : j + 1 < rest.length
    · rw [if_pos (show j + 2 + 1 < rest.length + 1 + 1 by omega), if_pos hlt]
      rfl
    · rw [if_neg (show ¬j + 2 + 1 < rest.length + 1 + 1 by omega), if_neg hlt]
      rfl
  · obtain ⟨k, rfl⟩ : ∃ k, j = k + 1 := ⟨j - 1, by omega⟩
    simp only [if_neg hp]
    by_cases hlt : k < rest.length
    · rw [if_pos (show k + 1 + 2 - 1 < rest.length + 1 + 1 by omega),
        if_pos (show k + 1 - 1 < rest.length by omega)]
      rfl
    · rw [if_neg (show ¬k + 1 + 2 - 1 < rest.length + 1 + 1 by omega),
        if_neg (show ¬k + 1 - 1 < rest.length by omega)]
      rfl

theorem applyStep_proofStep (h : List Nat → List Nat) :
    ∀ (L : List (List Nat)) (i : Nat), i < L.length →
      applyStep h (L.getD i []) (proofStep L i) = (pairUp h L).getD (i / 2) []
  | [], i, hi => absurd hi (by simp)
  | [x], i, hi => by
    obtain rfl : i = 0 := by simpa using Nat.lt_one_iff.mp (by simpa using hi)
    rw [proofStep_single, show ([x] : List (List Nat)).getD 0 [] = x from rfl,
      applyStep_right, show pairUp h [x] = [h (x ++ x)] from rfl]
    rfl
  | x :: y :: rest, i, hi =>
    match i with
    | 0 => by
      rw [proofStep_zero, show (x :: y :: rest).getD 0 [] = x from rfl, applyStep_right,
        show pairUp h (x :: y :: rest) = h (x ++ y) :: pairUp h rest from rfl]
      rfl
    | 1 => by
      rw [proofStep_one, show (x :: y :: rest).getD 1 [] = y from rfl, applyStep_left,
        show pairUp h (x :: y :: rest) = h (x ++ y) :: pairUp h rest from rfl]
      rfl
    | j + 2 => by
      rw [proofStep_cons_cons, show (x :: y :: rest).getD (j + 2) [] = rest.getD j []
          from rfl,
        applyStep_proofStep h rest j (by simp only [List.length_cons] at hi; omega),
        show pairUp h (x :: y :: rest) = h (x ++ y) :: pairUp h rest from rfl,
        show (j + 2) / 2 = j / 2 + 1 by omega]
      rfl

theorem foldProof_buildLayers (h : List Nat → List Nat) (L : List (List Nat)) (i : Nat)
    (hi : i < L.length) :
    foldProof h (L.getD i []) (getProofLoop (buildLayersFrom h L).dropLast i)
      = rootOfLayers (buildLayersFrom h L) := by
  by_cases h1 : L.length ≤ 1
  · have hlen : L.length = 1 := by omega
    obtain ⟨x, rfl⟩ := List.length_eq_one.mp hlen
    obtain rfl : i = 0 := by simpa using Nat.lt_one_iff.mp (by simpa using hi)
    rw [buildLayersFrom]
    simp [getProofLoop, foldProof, rootOfLayers, List.getLastD]
  · rw [buildLayersFrom, if_neg h1]
    have hTne := buildLayersFrom_ne_nil h (pairUp h L)
    rw [List.dropLast_cons_of_ne_nil hTne]
    simp only [getProofLoop, foldProof]
    rw [applyStep_proofStep h L i hi]
    rw [foldProof_buildLayers h (pairUp h L) (i / 2)
      (by rw [pairUp_length]; omega)]
    obtain ⟨t, T, hT⟩ : ∃ t T, buildLayersFrom h (pairUp h L) = t :: T := by
      rcases hE : buildLayersFrom h (pairUp h L) with _ | ⟨t, T⟩
      · exact absurd hE hTne
      · exact ⟨t, T, rfl⟩
    rw [hT]
    simp [rootOfLayers, List.getLastD]
termination_by L.length
decreasing_by simp only [pairUp_length]; omega

/-- C2: for any nonempty leaf list and in-range index, verifying the inclusion
proof for leaf i against the tree root returns true.  Odd layers with a
duplicated last node are covered: pairUp pairs a trailing node with itself
exactly as the Python loop does. -/
theorem merkle_verify_inclusion (leaves : List (List Nat)) (i : Nat)
    (hne : leaves ≠ []) (hi : i < leaves.length) :
    MerkleTree.verifyProof (leaves.getD i []) (MerkleTree.getProof leaves i)
      (MerkleTree.root leaves) = true := by
  have hmap : i < (leaves.map sha256).length := by simpa using hi
  have hget : (leaves.map sha256).getD i [] = sha256 (leaves.getD i []) := by
    simp [List.getD_eq_getElem?_getD, List.getElem?_map, List.getElem?_eq_getElem hi,
      List.getElem?_eq_getElem hmap]
  rw [MerkleTree.verifyProof, MerkleTree.getProof, MerkleTree.root, MerkleTree.buildTree,
    if_neg hne, beq_iff_eq, ← hget]
  exact foldProof_buildLayers sha256 (leaves.map sha256) i hmap

/-- Witness for C2 at three concrete leaves (an odd layer count, so the
self-pairing path is exercised) and index 2. -/
theorem merkle_verify_inclusion_witness :
    ([[0], [1], [2]] : List (List Nat)) ≠ [] ∧ 2 < ([[0], [1], [2]] : List (List Nat)).length ∧
      MerkleTree.verifyProof (([[0], [1], [2]] : List (List Nat)).getD 2 [])
        (MerkleTree.getProof [[0], [1], [2]] 2) (MerkleTree.root [[0], [1], [2]]) = true :=
  ⟨by decide, by decide, merkle_verify_inclusion [[0], [1], [2]] 2 (by decide) (by decide)⟩

/-! ## ActionStore (src/storage/logger.py)

The SQLite actions table is modelled as a list of rows (insertion order), the
action_tags table as a list of (action_id, tag) pairs.  JSON (de)serialization
of the payload and metadata columns is modelled as the identity on structured
values, payloads and metadata being flat string maps here; the ActionType
enumeration is modelled by its value string.  ActionRecord.created_at (the
dataclass default int(time.time())) and the created_at column default
(strftime of now) are two clock reads in the same call, modelled by the single
parameter now. -/

/-- ProofStatus from src/core/config.py. -/
inductive ProofStatus
  | pending
  | generating
  | generated
  | submitting
  | submitted
  | verified
  | failed
  | rejected
  | expired
deriving DecidableEq

/-- The .value string of each ProofStatus member. -/
def ProofStatus.value : ProofStatus → String
  | .pending => "pending"
  | .generating => "generating"
  | .generated => "generated"
  | .submitting => "submitting"
  | .submitted => "submitted"
  | .verified => "verified"
  | .failed => "failed"
  | .rejected => "rejected"
  | .expired => "expired"

/-- Python ProofStatus(value): member lookup by value string. -/
def proofStatusOfValue : String → Option ProofStatus
  | "pending" => some .pending
  | "generating" => some .generating
  | "generated" => some .generated
  | "submitting" => some .submitting
  | "submitted" => some .submitted
  | "verified" => some .verified
  | "failed" => some .failed
  | "rejected" => some .rejected
  | "expired" => some .expired
  | _ => none

theorem proofStatusOfValue_value (st : ProofStatus) :
    proofStatusOfValue st.value = some st := by cases st <;> rfl

/-- ActionRecord dataclass (payload and metadata as flat string maps). -/
structure ActionRecord where
  id : String
  robot_did : String
  action_type : String
  payload : List (String × String)
  timestamp : Int
  signature : String
  proof_status : ProofStatus
  tx_hash : Option String
  proof_id : Option String
  batch_id : Option String
  metadata : List (String × String)
  created_at : Int
deriving DecidableEq

/-- One row of the actions table (schema v3); proof_status is stored as its
value string, metadata may be NULL for pre-v3 rows. -/
structure ActionRow where
  id : String
  robot_did : String
  action_type : String
  payload : List (String × String)
  timestamp : Int
  signature : String
  proof_status : String
  tx_hash : Option String
  proof_id : Option String
  batch_id : Option String
  metadata : Option (List (String × String))
  created_at : Int
deriving DecidableEq

/-- The persistent store: actions table plus action_tags table. -/
structure StoreState where
  actions : List ActionRow
  action_tags : List (String × String)
deriving DecidableEq

/-- Canonical encoding of the dict signed in log_action (used only as the
input of the opaque Signer). -/
def canonicalSignData (action_id action_type : String)
    (payload : List (String × String)) (timestamp : Int) : String :=
  action_id ++ "|" ++ action_type ++ "|"
    ++ (payload.map (fun p => p.1 ++ "=" ++ p.2 ++ ";")).foldl (· ++ ·) ""
    ++ "|" ++ toString timestamp

/-- ActionLogger.log_action: build the record (id from generate_action_id, a
signature from the Signer, status PENDING), insert the row (tx_hash, proof_id,
batch_id NULL) plus the tag rows in one transaction.  A duplicate id violates
the PRIMARY KEY constraint (the entropy is drawn randomly per call in Python
and passed explicitly here). -/
def ActionLogger.log_action (store : StoreState) (did : String)
    (signFn : String → String) (action_type : String)
    (payload : List (String × String)) (timestamp : Int) (entropy : List Nat)
    (tags : List String) (metadata : List (String × String)) (now : Int) :
    Except String (StoreState × ActionRecord) :=
  let action_id := generate_action_id did action_type timestamp entropy
  let signature := signFn (canonicalSignData action_id action_type payload timestamp)
  let record : ActionRecord :=
    { id := action_id, robot_did := did, action_type := action_type,
      payload := payload, timestamp := timestamp, signature := signature,
      proof_status := .pending, tx_hash := none, proof_id := none, batch_id := none,
      metadata := metadata, created_at := now }
  if store.actions.any (fun r => r.id == action_id) then
    Except.error "UNIQUE constraint failed: actions.id"
  else
    Except.ok
      ({ actions := store.actions ++
          [{ id := record.id, robot_did := record.robot_did,
             action_type := record.action_type, payload := record.payload,
             timestamp := record.timestamp, signature := record.signature,
             proof_status := record.proof_status.value, tx_hash := none,
             proof_id := none, batch_id := none, metadata := some record.metadata,
             created_at := now }],
         action_tags := store.action_tags ++ tags.map (fun t => (action_id, t)) },
       record)

/-- The error every conversion of a found row raises in the source:
sqlite3.Row carries no .get method. -/
def rowGetAttributeError : String :=
  "AttributeError: sqlite3.Row object has no attribute get"

/-- ActionLogger._row_to_record as the source actually behaves.  The keyword
arguments of the ActionRecord(...) call are evaluated left to right, so
ProofStatus(row[...]) is parsed first (ValueError on an unknown value) — and
then proof_id=row.get(...) is evaluated, but sqlite3.Row has no .get method
(logger.py:592-593), so converting any found row raises AttributeError before
a record is ever built. -/
def ActionLogger.row_to_record (row : ActionRow) : Except String ActionRecord :=
  match proofStatusOfValue row.proof_status with
  | none => Except.error "ValueError: not a valid ProofStatus"
  | some _ => Except.error rowGetAttributeError

/-- The conversion _row_to_record is written to perform, and the one the
spec's round-trip describes: the same field reads, with the two row.get
columns read as plain nullable columns — the tolerant dict-style read the
code evidently intends for the optional post-migration columns (compare the
design note about the row-to-record conversion tolerant of missing optional
columns). -/
def ActionLogger.row_to_record_intended (row : ActionRow) : Option ActionRecord :=
  (proofStatusOfValue row.proof_status).map (fun st =>
    { id := row.id, robot_did := row.robot_did, action_type := row.action_type,
      payload := row.payload, timestamp := row.timestamp, signature := row.signature,
      proof_status := st, tx_hash := row.tx_hash, proof_id := row.proof_id,
      batch_id := row.batch_id, metadata := row.metadata.getD [],
      created_at := row.created_at })

/-- ActionLogger.get_action as the source behaves: SELECT by primary key; a
missing row is None (ok none); a found row goes through _row_to_record, whose
AttributeError propagates. -/
def ActionLogger.get_action (store : StoreState) (action_id : String) :
    Except String (Option ActionRecord) :=
  match store.actions.find? (fun r => r.id == action_id) with
  | some row => (ActionLogger.row_to_record row).map some
  | none => Except.ok none

/-- get_action under the intended row conversion. -/
def ActionLogger.get_action_intended (store : StoreState) (action_id : String) :
    Option ActionRecord :=
  (store.actions.find? (fun r => r.id == action_id)).bind
    ActionLogger.row_to_record_intended

/-- ActionLogger.update_proof_status: one UPDATE setting proof_status, tx_hash
and proof_id on the row with the given id (the optional arguments default to
None in Python; omitted values are overwritten with NULL). -/
def ActionLogger.update_proof_status (store : StoreState) (action_id : String)
    (status : ProofStatus) (tx_hash proof_id : Option String) : StoreState :=
  { store with
    actions := store.actions.map (fun r =>
      if r.id == action_id then
        { r with proof_status := status.value, tx_hash := tx_hash, proof_id := proof_id }
      else r) }

/-! ### Store lemmas -/

theorem find?_map_update (aid : String) (g : ActionRow → ActionRow)
    (hg : ∀ r, (g r).id = r.id) :
    ∀ l : List ActionRow,
      (l.map (fun r => if r.id == aid then g r else r)).find? (fun r => r.id == aid)
        = (l.find? (fun r => r.id == aid)).map (fun r => if r.id == aid then g r else r)
  | [] => rfl
  | r :: l => by
    cases hr : (r.id == aid)
    · rw [List.map_cons, if_neg (by simp [hr]),
        List.find?_cons_of_neg _ (by simp [hr]), List.find?_cons_of_neg _ (by simp [hr])]
      exact find?_map_update aid g hg l
    · rw [List.map_cons, if_pos hr, List.find?_cons_of_pos _ (by simp [hg, hr]),
        List.find?_cons_of_pos (p := fun r : ActionRow => r.id == aid) _ hr, Option.map_some',
        if_pos hr]

/-- After update_proof_status, a record that the intended reader returned is
returned again with exactly the proof status, tx_hash and proof_id
replaced. -/
theorem get_action_update (store : StoreState) (aid : String) (r : ActionRecord)
    (st : ProofStatus) (tx pf : Option String)
    (h : ActionLogger.get_action_intended store aid = some r) :
    ActionLogger.get_action_intended
        (ActionLogger.update_proof_status store aid st tx pf) aid
      = some { r with proof_status := st, tx_hash := tx, proof_id := pf } := by
  unfold ActionLogger.get_action_intended at h
  obtain ⟨row, hrow, hconv⟩ := Option.bind_eq_some.mp h
  have hpred : (row.id == aid) = true := List.find?_some (p := fun r : ActionRow => r.id == aid) hrow
  simp only [ActionLogger.get_action_intended, ActionLogger.update_proof_status]
  rw [find?_map_update aid
      (fun r0 : ActionRow =>
        { r0 with proof_status := st.value, tx_hash := tx, proof_id := pf })
      (fun _ => rfl), hrow]
  simp only [Option.map_some', hpred, if_true, Option.some_bind]
  unfold ActionLogger.row_to_record_intended at hconv ⊢
  obtain ⟨st0, hst0, hr⟩ := Option.map_eq_some'.mp hconv
  simp only [proofStatusOfValue_value, Option.map_some']
  rw [← hr]

/-- A concrete stored row with VERIFIED status and set references. -/
def verifiedRow : ActionRow :=
  { id := "act_0", robot_did := "did:roboid:r1", action_type := "NAV_START",
    payload := [], timestamp := 1000, signature := "sig", proof_status := "verified",
    tx_hash := some "tx1", proof_id := some "prf1", batch_id := none,
    metadata := some [], created_at := 1000 }

/-- A store holding exactly the VERIFIED row. -/
def verifiedStore : StoreState := { actions := [verifiedRow], action_tags := [] }

/-- C1 counterexample, observed directly at the stored row (the reader
get_action cannot serve as the observer: _row_to_record raises on every row,
see C9): updateStatus(id, PENDING) on a stored row whose status is VERIFIED
is not rejected — update_proof_status has no validation or error path at
all — and it does not leave the row unchanged: the stored status becomes
PENDING and the previously set tx_hash and proof_id are overwritten with
NULL. -/
theorem update_proof_status_no_validation_cex :
    verifiedRow.proof_status = ProofStatus.verified.value ∧
      (ActionLogger.update_proof_status verifiedStore "act_0" ProofStatus.pending
          none none).actions.find? (fun r => r.id == "act_0")
        = some { verifiedRow with
            proof_status := ProofStatus.pending.value,
            tx_hash := none,
            proof_id := none } :=
  ⟨rfl, by decide⟩

/-- C1 (amended): update_proof_status performs no transition validation: for
any stored row — whatever its current status, terminal states included — and
any requested status, the UPDATE succeeds and unconditionally overwrites the
row's proof_status, tx_hash and proof_id columns with the supplied values
(NULL for the omitted optional arguments), leaving every other column
unchanged.  Stated over the stored rows themselves, since the source's
get_action raises before returning a record (see C9). -/
theorem update_proof_status_overwrites (store : StoreState) (aid : String)
    (row : ActionRow) (st : ProofStatus) (tx pf : Option String)
    (hrow : store.actions.find? (fun r => r.id == aid) = some row) :
    (ActionLogger.update_proof_status store aid st tx pf).actions.find?
        (fun r => r.id == aid)
      = some { row with proof_status := st.value, tx_hash := tx, proof_id := pf } := by
  have hpred : (row.id == aid) = true :=
    List.find?_some (p := fun r : ActionRow => r.id == aid) hrow
  simp only [ActionLogger.update_proof_status]
  rw [find?_map_update aid
      (fun r0 : ActionRow =>
        { r0 with proof_status := st.value, tx_hash := tx, proof_id := pf })
      (fun _ => rfl), hrow, Option.map_some', if_pos hpred]

/-- Witness for the amended C1 at the concrete VERIFIED row: the update to
FAILED overwrites the status and reference columns in place. -/
theorem update_proof_status_overwrites_witness :
    (ActionLogger.update_proof_status verifiedStore "act_0" ProofStatus.failed
        (some "t2") none).actions.find? (fun r => r.id == "act_0")
      = some { verifiedRow with
          proof_status := ProofStatus.failed.value,
          tx_hash := some "t2",
          proof_id := none } :=
  update_proof_status_overwrites verifiedStore "act_0" verifiedRow
    ProofStatus.failed (some "t2") none (by decide)

theorem get_action_append (store : StoreState) (row : ActionRow) (aid : String)
    (hid : row.id = aid)
    (hfresh : store.actions.any (fun r => r.id == aid) = false) :
    (store.actions ++ [row]).find? (fun r => r.id == aid) = some row := by
  rw [List.find?_append]
  have hnone : store.actions.find? (fun r => r.id == aid) = none :=
    List.find?_eq_none.mpr (by
      intro x hx
      have hx2 := List.any_eq_false.mp hfresh x hx
      simp only [hx2]
      exact Bool.false_ne_true)
  rw [hnone, Option.none_or]
  exact List.find?_cons_of_pos _ (by simp [hid])

/-- C9 (code bug): the store round-trip crashes in the reader.  After a
successful log_action, the source's get_action never returns the reloaded
record: _row_to_record evaluates row.get on a sqlite3.Row (logger.py:592-593),
which has no .get attribute, so converting the found row raises
AttributeError.  Under the intended reader — the identical conversion with
the two optional columns read as plain nullable columns, which is the
round-trip the spec describes — the reloaded record is field-identical to the
logged one (id, actor DID, kind, payload, timestamp, signature, proof status
PENDING, tx/proof/batch references, metadata, creation time; the Python
ActionRecord carries no tags field, tags live only in the action_tags table),
and after update_proof_status exactly the explicitly changed status fields
differ.  The spec states the intent; the .get call is the slip. -/
theorem get_action_crashes_after_log (store : StoreState) (did : String)
    (signFn : String → String) (atype : String) (payload : List (String × String))
    (ts : Int) (entropy : List Nat) (tags : List String)
    (md : List (String × String)) (now : Int) (st : ProofStatus) (tx pf : Option String)
    (hfresh : store.actions.any
      (fun r => r.id == generate_action_id did atype ts entropy) = false) :
    ∃ store2 record,
      ActionLogger.log_action store did signFn atype payload ts entropy tags md now
          = Except.ok (store2, record)
        ∧ record.id = generate_action_id did atype ts entropy
        ∧ ActionLogger.get_action store2 record.id
            = Except.error rowGetAttributeError
        ∧ ActionLogger.get_action_intended store2 record.id = some record
        ∧ ActionLogger.get_action_intended
            (ActionLogger.update_proof_status store2 record.id st tx pf) record.id
          = some { record with proof_status := st, tx_hash := tx, proof_id := pf } := by
  simp only [ActionLogger.log_action]
  rw [hfresh]
  simp only [Bool.false_eq_true, if_false]
  refine ⟨_, _, rfl, rfl, ?_, ?_, ?_⟩
  · simp only [ActionLogger.get_action]
    rw [get_action_append store _ (generate_action_id did atype ts entropy) rfl hfresh]
    rfl
  · simp only [ActionLogger.get_action_intended]
    rw [get_action_append store _ (generate_action_id did atype ts entropy) rfl hfresh]
    simp [ActionLogger.row_to_record_intended, proofStatusOfValue_value]
  · apply get_action_update
    simp only [ActionLogger.get_action_intended]
    rw [get_action_append store _ (generate_action_id did atype ts entropy) rfl hfresh]
    simp [ActionLogger.row_to_record_intended, proofStatusOfValue_value]

/-- Witness for C9 at the empty store: the logged record is reloadable only
through the intended reader; the source reader yields the AttributeError. -/
theorem get_action_crashes_after_log_witness :
    (({ actions := [], action_tags := [] } : StoreState)).actions.any
        (fun r => r.id == generate_action_id "d" "NAV_START" 5 [0]) = false
    ∧ ∃ store2 record,
        ActionLogger.log_action { actions := [], action_tags := [] } "d" (fun s => s)
            "NAV_START" [] 5 [0] [] [] 7
            = Except.ok (store2, record)
          ∧ record.id = generate_action_id "d" "NAV_START" 5 [0]
          ∧ ActionLogger.get_action store2 record.id
              = Except.error rowGetAttributeError
          ∧ ActionLogger.get_action_intended store2 record.id = some record
          ∧ ActionLogger.get_action_intended
              (ActionLogger.update_proof_status store2 record.id ProofStatus.verified
                (some "tx1") (some "p1")) record.id
            = some { record with
                proof_status := ProofStatus.verified,
                tx_hash := some "tx1",
                proof_id := some "p1" } :=
  ⟨rfl, get_action_crashes_after_log { actions := [], action_tags := [] } "d"
    (fun s => s) "NAV_START" [] 5 [0] [] [] 7 ProofStatus.verified (some "tx1")
    (some "p1") rfl⟩

/-! ## ZKProver (src/crypto/zkproof.py)

generate_proof fabricates a deterministic proof structure from hashes and the
wall clock; for the batch contract it is abstracted as a parameter producing
each action's serialized proof bytes (ZKProof.to_bytes), which are exactly the
Merkle leaves of generate_batch_proof.  The statistics counters that
generate_proof and generate_batch_proof touch are carried explicitly. -/

/-- ZKProof dataclass (the Groth16-shaped payload of the stand-in prover). -/
structure ZKProof where
  proof_a : List String
  proof_b : List (List String)
  proof_c : List String
  public_inputs : List String
  circuit_id : String
  circuit_type : String
  generated_at : Int
  proof_id : String
deriving DecidableEq

/-- The ZKProver state touched by the claims: the verification-key flag and
the statistics counters. -/
structure ZKProverState where
  verification_key_loaded : Bool
  proofs_generated : Nat
  batch_proofs_generated : Nat
deriving DecidableEq

/-- ZKProver.load_verification_key: idempotent flag set (the stand-in loads
nothing). -/
def ZKProver.load_verification_key (st : ZKProverState) : ZKProverState :=
  if st.verification_key_loaded then st
  else { st with verification_key_loaded := true }

/-- ZKProver.verify_proof_locally: ensures the verification key is loaded and
returns True. -/
def ZKProver.verify_proof_locally (st : ZKProverState) (proof : ZKProof) :
    Bool × ZKProverState :=
  let st2 := if st.verification_key_loaded then st
             else ZKProver.load_verification_key st
  (true, st2)

/-- BatchProof dataclass: the member proofs (as their serialized leaf bytes,
in order), the Merkle root hex, the member count and the generation time.  The
aggregate proof artifact is determined by the root commitment and the clock
and is not further modelled. -/
structure BatchProof where
  individual_proofs : List (List Nat)
  merkle_root : String
  action_count : Nat
  generated_at : Int
deriving DecidableEq

/-- ZKProver.generate_batch_proof: reject oversized batches with ValueError
before any proof generation; otherwise generate one proof per action in
order, build the Merkle tree over their serialized bytes and return the batch
artifact (CONFIG.MAX_BATCH_SIZE = 100 is the default bound). -/
def ZKProver.generate_batch_proof {α : Type} (genProof : α → List Nat) (now : Int)
    (st : ZKProverState) (actions : List α) (max_batch_size : Nat := 100) :
    Except String BatchProof × ZKProverState :=
  if actions.length > max_batch_size then
    (Except.error ("Batch size " ++ toString actions.length ++ " exceeds maximum "
        ++ toString max_batch_size), st)
  else
    let proofs := actions.map genProof
    (Except.ok { individual_proofs := proofs,
                 merkle_root := bytesToHex (rootOfLayers (MerkleTree.buildTree proofs)),
                 action_count := actions.length, generated_at := now },
     { st with proofs_generated := st.proofs_generated + actions.length,
               batch_proofs_generated := st.batch_proofs_generated + 1 })

/-- C3: for 1..100 actions generate_batch_proof returns the artifact whose
member count is the number of actions and whose member proofs are the actions'
proofs in exactly the caller's order; above 100 (the default maxBatchSize) it
rejects with the ValueError that realizes the spec's ValidationError, and no
proof generation happens (the prover state, in particular proofs_generated,
is unchanged). -/
theorem generate_batch_proof_spec {α : Type} (genProof : α → List Nat) (now : Int)
    (st : ZKProverState) (actions : List α) :
    (actions.length ≥ 1 → actions.length ≤ 100 →
      ZKProver.generate_batch_proof genProof now st actions
        = (Except.ok { individual_proofs := actions.map genProof,
                       merkle_root := bytesToHex (rootOfLayers
                         (MerkleTree.buildTree (actions.map genProof))),
                       action_count := actions.length, generated_at := now },
           { st with proofs_generated := st.proofs_generated + actions.length,
                     batch_proofs_generated := st.batch_proofs_generated + 1 }))
    ∧ (actions.length > 100 →
      ZKProver.generate_batch_proof genProof now st actions
        = (Except.error ("Batch size " ++ toString actions.length
            ++ " exceeds maximum " ++ toString (100 : Nat)), st)) := by
  constructor
  · intro _ h2
    unfold ZKProver.generate_batch_proof
    rw [if_neg (by omega)]
  · intro h
    unfold ZKProver.generate_batch_proof
    rw [if_pos (by omega)]

/-- Witness for C3: a 3-action batch succeeds with count 3 and ordered
leaves; a 101-action batch is rejected with the prover state unchanged. -/
theorem generate_batch_proof_witness :
    (ZKProver.generate_batch_proof (fun n : Nat => [n]) 9 ⟨false, 0, 0⟩ [5, 6, 7]
      = (Except.ok { individual_proofs := [[5], [6], [7]],
                     merkle_root := bytesToHex (rootOfLayers
                       (MerkleTree.buildTree [[5], [6], [7]])),
                     action_count := 3, generated_at := 9 },
         ⟨false, 3, 1⟩))
    ∧ (ZKProver.generate_batch_proof (fun n : Nat => [n]) 9 ⟨false, 0, 0⟩
        (List.replicate 101 0)
      = (Except.error ("Batch size " ++ toString (List.replicate 101 (0 : Nat)).length
          ++ " exceeds maximum " ++ toString (100 : Nat)), ⟨false, 0, 0⟩)) := by
  constructor
  · exact ((generate_batch_proof_spec (fun n : Nat => [n]) 9 ⟨false, 0, 0⟩ [5, 6, 7]).1
      (by decide) (by decide))
  · exact ((generate_batch_proof_spec (fun n : Nat => [n]) 9 ⟨false, 0, 0⟩
      (List.replicate 101 0)).2 (by simp))

/-- C10: local proof verification returns True for every ZKProof value,
whatever its payload, public inputs or circuit id: there is no rejecting
path. -/
theorem verify_proof_locally_always_true (st : ZKProverState) (proof : ZKProof) :
    (ZKProver.verify_proof_locally st proof).1 = true := rfl

/-! ## ReputationManager (src/core/reputation.py)

Float scores are real numbers; timestamps are seconds as Int; UTC calendar
dates are integer day numbers, so the strftime/strptime day arithmetic of
_update_streak and _is_consecutive_day is integer arithmetic.  The definitions
are noncomputable exactly where the Python floats are compared or raised to
real powers. -/

/-- ReputationEvent enum from src/core/config.py. -/
inductive ReputationEvent
  | proof_verified
  | task_completed
  | task_failed
  | geofence_violation
  | tamper_detected
  | uptime_bonus
  | streak_bonus
  | first_task
  | quality_bonus
  | speed_bonus
  | peer_endorsement
  | operator_penalty
deriving DecidableEq

/-- Base score delta of each event. -/
def ReputationEvent.score_delta : ReputationEvent → ℝ
  | .proof_verified => 1.0
  | .task_completed => 2.0
  | .task_failed => -5.0
  | .geofence_violation => -10.0
  | .tamper_detected => -50.0
  | .uptime_bonus => 0.5
  | .streak_bonus => 1.5
  | .first_task => 5.0
  | .quality_bonus => 3.0
  | .speed_bonus => 1.0
  | .peer_endorsement => 2.0
  | .operator_penalty => -20.0

/-- event_name of each event. -/
def ReputationEvent.event_name : ReputationEvent → String
  | .proof_verified => "proof_verified"
  | .task_completed => "task_completed"
  | .task_failed => "task_failed"
  | .geofence_violation => "geofence_violation"
  | .tamper_detected => "tamper_detected"
  | .uptime_bonus => "uptime_bonus"
  | .streak_bonus => "streak_bonus"
  | .first_task => "first_task"
  | .quality_bonus => "quality_bonus"
  | .speed_bonus => "speed_bonus"
  | .peer_endorsement => "peer_endorsement"
  | .operator_penalty => "operator_penalty"

/-- ProtocolConfig reputation parameters. -/
def MIN_REPUTATION : ℝ := 0.0

def MAX_REPUTATION : ℝ := 1000.0

def INITIAL_REPUTATION : ℝ := 100.0

def REPUTATION_DECAY_RATE : ℝ := 0.001

/-- ReputationRecord dataclass. -/
structure ReputationRecord where
  event_id : String
  event_type : ReputationEvent
  score_delta : ℝ
  timestamp : Int
  reason : String
  tx_hash : Option String
  metadata : List (String × String)

/-- The full mutable state of one ReputationManager (score, history, StreakData,
decay checkpoint, counters). -/
structure RepState where
  robot_did : String
  score : ℝ
  history : List ReputationRecord
  current_streak : Nat
  longest_streak : Nat
  last_activity_date : Option Int
  streak_start_date : Option Int
  total_active_days : Nat
  last_decay_check : Int
  positive_events : Nat
  negative_events : Nat
  total_earned : ℝ
  total_lost : ℝ

/-- ReputationManager.__init__ (initial_score defaults to
CONFIG.INITIAL_REPUTATION). -/
def ReputationManager.init (robot_did : String) (now : Int)
    (initial_score : ℝ := INITIAL_REPUTATION) : RepState :=
  { robot_did := robot_did, score := initial_score, history := [],
    current_streak := 0, longest_streak := 0, last_activity_date := none,
    streak_start_date := none, total_active_days := 0, last_decay_check := now,
    positive_events := 0, negative_events := 0, total_earned := 0, total_lost := 0 }

/-- ReputationManager._apply_decay: if at least one full hour has elapsed,
multiply the score by (1 - rate)^hoursElapsed (floored at MIN) and advance the
checkpoint; otherwise leave the state untouched. -/
noncomputable def ReputationManager.apply_decay (now : Int) (s : RepState) : RepState :=
  let hours : ℝ := ((now - s.last_decay_check : Int) : ℝ) / 3600
  if 1 ≤ hours then
    { s with
      score := max MIN_REPUTATION
        (s.score * Real.rpow (1 - REPUTATION_DECAY_RATE) hours),
      last_decay_check := now }
  else s

/-- ReputationManager._get_streak_multiplier. -/
def ReputationManager.streak_multiplier (streak : Nat) : ℝ :=
  if streak < 3 then 1.0
  else if streak < 7 then 1.1
  else if streak < 14 then 1.2
  else if streak < 30 then 1.3
  else 1.5

/-- ReputationManager._is_consecutive_day over day numbers. -/
def ReputationManager.is_consecutive_day (prev curr : Int) : Bool :=
  curr - prev == 1

/-- ReputationManager._update_streak for the current calendar day. -/
def ReputationManager.update_streak (today : Int) (s : RepState) : RepState :=
  match s.last_activity_date with
  | none =>
    { s with
      current_streak := 1, longest_streak := 1, streak_start_date := some today,
      total_active_days := 1, last_activity_date := some today }
  | some prev =>
    if prev = today then { s with last_activity_date := some today }
    else if ReputationManager.is_consecutive_day prev today then
      { s with
        current_streak := s.current_streak + 1,
        longest_streak := max s.longest_streak (s.current_streak + 1),
        total_active_days := s.total_active_days + 1,
        last_activity_date := some today }
    else
      { s with
        current_streak := 1, streak_start_date := some today,
        total_active_days := s.total_active_days + 1,
        last_activity_date := some today }

/-- ReputationManager.record_event: decay first; streak multiplier from the
current streak tier; positive base deltas scaled by multiplier and streak
multiplier, negative ones by the multiplier only; clamp into [MIN, MAX];
update the counters with the actual (post-clamp) delta; update the streak;
append exactly one history record carrying the actual delta. -/
noncomputable def ReputationManager.record_event (now today : Int)
    (event_type : ReputationEvent) (reason : String) (multiplier : ℝ)
    (metadata : List (String × String)) (s : RepState) :
    RepState × ReputationRecord :=
  let s0 := ReputationManager.apply_decay now s
  let streak_mult := ReputationManager.streak_multiplier s0.current_streak
  let base_delta := event_type.score_delta
  let final_delta :=
    if base_delta > 0 then base_delta * multiplier * streak_mult
    else base_delta * multiplier
  let old_score := s0.score
  let new_score := max MIN_REPUTATION (min MAX_REPUTATION (old_score + final_delta))
  let actual_delta := new_score - old_score
  let s1 :=
    { s0 with
      score := new_score,
      positive_events :=
        if actual_delta > 0 then s0.positive_events + 1 else s0.positive_events,
      negative_events :=
        if actual_delta < 0 then s0.negative_events + 1 else s0.negative_events,
      total_earned :=
        if actual_delta > 0 then s0.total_earned + actual_delta else s0.total_earned,
      total_lost :=
        if actual_delta < 0 then s0.total_lost + |actual_delta| else s0.total_lost }
  let s2 := ReputationManager.update_streak today s1
  let record : ReputationRecord :=
    { event_id := "rep_" ++ toString now ++ "_" ++ toString s2.history.length,
      event_type := event_type, score_delta := actual_delta, timestamp := now,
      reason := if reason = "" then event_type.event_name else reason,
      tx_hash := none, metadata := metadata }
  ({ s2 with history := s2.history ++ [record] }, record)

/-- One observable operation on the ledger: a recordEvent call or a lazy decay
application (a score read). -/
inductive RepOp
  | record (now today : Int) (event_type : ReputationEvent) (reason : String)
      (multiplier : ℝ) (metadata : List (String × String))
  | read_score (now : Int)

noncomputable def ReputationManager.step (op : RepOp) (s : RepState) : RepState :=
  match op with
  | .record now today e reason mult md =>
    (ReputationManager.record_event now today e reason mult md s).1
  | .read_score now => ReputationManager.apply_decay now s

noncomputable def ReputationManager.run (ops : List RepOp) (s : RepState) : RepState :=
  ops.foldl (fun s op => ReputationManager.step op s) s

/-! ### Reputation lemmas -/

theorem apply_decay_history (now : Int) (s : RepState) :
    (ReputationManager.apply_decay now s).history = s.history := by
  simp only [ReputationManager.apply_decay]
  split <;> rfl

theorem apply_decay_current_streak (now : Int) (s : RepState) :
    (ReputationManager.apply_decay now s).current_streak = s.current_streak := by
  simp only [ReputationManager.apply_decay]
  split <;> rfl

theorem apply_decay_last_activity (now : Int) (s : RepState) :
    (ReputationManager.apply_decay now s).last_activity_date
      = s.last_activity_date := by
  simp only [ReputationManager.apply_decay]
  split <;> rfl

theorem apply_decay_total_days (now : Int) (s : RepState) :
    (ReputationManager.apply_decay now s).total_active_days
      = s.total_active_days := by
  simp only [ReputationManager.apply_decay]
  split <;> rfl

theorem update_streak_score (today : Int) (s : RepState) :
    (ReputationManager.update_streak today s).score = s.score := by
  unfold ReputationManager.update_streak
  cases s.last_activity_date
  · rfl
  · dsimp only
    split_ifs <;> rfl

theorem update_streak_history (today : Int) (s : RepState) :
    (ReputationManager.update_streak today s).history = s.history := by
  unfold ReputationManager.update_streak
  cases s.last_activity_date
  · rfl
  · dsimp only
    split_ifs <;> rfl

theorem update_streak_same_day (today : Int) (t : RepState)
    (hl : t.last_activity_date = some today) :
    (ReputationManager.update_streak today t).current_streak = t.current_streak := by
  unfold ReputationManager.update_streak
  rw [hl]
  dsimp only
  rw [if_pos rfl]

theorem update_streak_consecutive_streak (today : Int) (t : RepState) (d : Int)
    (hl : t.last_activity_date = some d) (hd : today = d + 1) :
    (ReputationManager.update_streak today t).current_streak
      = t.current_streak + 1 := by
  subst hd
  unfold ReputationManager.update_streak
  rw [hl]
  dsimp only
  rw [if_neg (by omega),
    if_pos (by simp [ReputationManager.is_consecutive_day])]

theorem update_streak_consecutive_days (today : Int) (t : RepState) (d : Int)
    (hl : t.last_activity_date = some d) (hd : today = d + 1) :
    (ReputationManager.update_streak today t).total_active_days
      = t.total_active_days + 1 := by
  subst hd
  unfold ReputationManager.update_streak
  rw [hl]
  dsimp only
  rw [if_neg (by omega),
    if_pos (by simp [ReputationManager.is_consecutive_day])]

theorem update_streak_gap (today : Int) (t : RepState) (d : Int)
    (hl : t.last_activity_date = some d) (hgap : d + 2 ≤ today) :
    (ReputationManager.update_streak today t).current_streak = 1 := by
  unfold ReputationManager.update_streak
  rw [hl]
  dsimp only
  rw [if_neg (by omega),
    if_neg (by simp [ReputationManager.is_consecutive_day]; omega)]

theorem apply_decay_bounds (now : Int) (s : RepState)
    (h0 : MIN_REPUTATION ≤ s.score) (h1 : s.score ≤ MAX_REPUTATION) :
    MIN_REPUTATION ≤ (ReputationManager.apply_decay now s).score
      ∧ (ReputationManager.apply_decay now s).score ≤ MAX_REPUTATION := by
  simp only [ReputationManager.apply_decay]
  split
  · rename_i hc
    refine ⟨le_max_left _ _, ?_⟩
    have hh : (0 : ℝ) ≤ ((now - s.last_decay_check : Int) : ℝ) / 3600 :=
      le_trans zero_le_one hc
    have hfle : Real.rpow (1 - REPUTATION_DECAY_RATE)
        (((now - s.last_decay_check : Int) : ℝ) / 3600) ≤ 1 :=
      Real.rpow_le_one (by norm_num [REPUTATION_DECAY_RATE])
        (by norm_num [REPUTATION_DECAY_RATE]) hh
    have hmul : s.score * Real.rpow (1 - REPUTATION_DECAY_RATE)
        (((now - s.last_decay_check : Int) : ℝ) / 3600) ≤ s.score :=
      mul_le_of_le_one_right
        (le_trans (by norm_num [MIN_REPUTATION]) h0) hfle
    exact max_le (by norm_num [MIN_REPUTATION, MAX_REPUTATION]) (le_trans hmul h1)
  · exact ⟨h0, h1⟩

theorem record_event_bounds (now today : Int) (e : ReputationEvent) (reason : String)
    (mult : ℝ) (md : List (String × String)) (s : RepState) :
    MIN_REPUTATION
        ≤ (ReputationManager.record_event now today e reason mult md s).1.score
      ∧ (ReputationManager.record_event now today e reason mult md s).1.score
          ≤ MAX_REPUTATION := by
  simp only [ReputationManager.record_event]
  rw [update_streak_score]
  exact ⟨le_max_left _ _,
    max_le (by norm_num [MIN_REPUTATION, MAX_REPUTATION]) (min_le_left _ _)⟩

/-- C4: the reputation score stays within [MIN_REPUTATION, MAX_REPUTATION] =
[0, 1000] across every sequence of recordEvent calls (any event kinds and
multipliers) interleaved with lazy decay applications, from any state whose
score is in range — in particular from the initial state, whose score
INITIAL_REPUTATION = 100 is; every intermediate point is the run of a prefix,
so the bound holds at every point. -/
theorem reputation_score_bounded (ops : List RepOp) (s : RepState)
    (h : MIN_REPUTATION ≤ s.score ∧ s.score ≤ MAX_REPUTATION) :
    MIN_REPUTATION ≤ (ReputationManager.run ops s).score
      ∧ (ReputationManager.run ops s).score ≤ MAX_REPUTATION := by
  induction ops generalizing s with
  | nil => simpa [ReputationManager.run] using h
  | cons op ops ih =>
    have hstep : MIN_REPUTATION ≤ (ReputationManager.step op s).score
        ∧ (ReputationManager.step op s).score ≤ MAX_REPUTATION := by
      cases op with
      | record now today e reason mult md =>
        exact record_event_bounds now today e reason mult md s
      | read_score now => exact apply_decay_bounds now s h.1 h.2
    have hrun : ReputationManager.run (op :: ops) s
        = ReputationManager.run ops (ReputationManager.step op s) := by
      simp [ReputationManager.run]
    rw [hrun]
    exact ih _ hstep

/-- Witness for C4 at the initial state (score 100) under a concrete event
and a decay read. -/
theorem reputation_score_bounded_witness :
    (MIN_REPUTATION ≤ (ReputationManager.init "d" 0).score
        ∧ (ReputationManager.init "d" 0).score ≤ MAX_REPUTATION)
    ∧ (MIN_REPUTATION
          ≤ (ReputationManager.run
              [RepOp.record 3600 1 ReputationEvent.tamper_detected "" 1 [],
               RepOp.read_score 7200] (ReputationManager.init "d" 0)).score
        ∧ (ReputationManager.run
              [RepOp.record 3600 1 ReputationEvent.tamper_detected "" 1 [],
               RepOp.read_score 7200] (ReputationManager.init "d" 0)).score
            ≤ MAX_REPUTATION) :=
  ⟨⟨by norm_num [ReputationManager.init, INITIAL_REPUTATION, MIN_REPUTATION],
    by norm_num [ReputationManager.init, INITIAL_REPUTATION, MAX_REPUTATION]⟩,
   reputation_score_bounded _ _
    ⟨by norm_num [ReputationManager.init, INITIAL_REPUTATION, MIN_REPUTATION],
     by norm_num [ReputationManager.init, INITIAL_REPUTATION, MAX_REPUTATION]⟩⟩

/-- C5: the streak multiplier tiers are <3 days: 1.0, <7: 1.1, <14: 1.2,
<30: 1.3, else 1.5; the pre-clamp delta is base x multiplier x
streakMultiplier for positive base deltas and base x multiplier for
non-positive ones (no streak amplification of penalties); the new score is
the clamp of the post-decay score plus that delta; exactly one history record
is appended and it stores the actual post-clamp delta. -/
theorem record_event_delta_spec (now today : Int) (e : ReputationEvent)
    (reason : String) (mult : ℝ) (md : List (String × String)) (s : RepState) :
    (∀ n : Nat, ReputationManager.streak_multiplier n
        = if n < 3 then (1.0 : ℝ) else if n < 7 then 1.1 else if n < 14 then 1.2
          else if n < 30 then 1.3 else 1.5)
    ∧ (ReputationManager.record_event now today e reason mult md s).1.score
        = max MIN_REPUTATION (min MAX_REPUTATION
            ((ReputationManager.apply_decay now s).score
              + (if e.score_delta > 0 then
                  e.score_delta * mult * ReputationManager.streak_multiplier
                    (ReputationManager.apply_decay now s).current_streak
                 else e.score_delta * mult)))
    ∧ (ReputationManager.record_event now today e reason mult md s).1.history
        = s.history
            ++ [(ReputationManager.record_event now today e reason mult md s).2]
    ∧ (ReputationManager.record_event now today e reason mult md s).2.score_delta
        = (ReputationManager.record_event now today e reason mult md s).1.score
            - (ReputationManager.apply_decay now s).score := by
  refine ⟨fun n => rfl, ?_, ?_, ?_⟩
  · simp only [ReputationManager.record_event]
    rw [update_streak_score]
  · simp only [ReputationManager.record_event]
    rw [update_streak_history, apply_decay_history]
  · simp only [ReputationManager.record_event]
    rw [update_streak_score]

/-- C6: decay is lazy.  If less than one full hour has elapsed since the decay
checkpoint, the state (score and checkpoint alike) is untouched; after T >= 1
hours the score becomes the old score times (1 - decayRatePerHour)^T floored
at MIN_REPUTATION, and the checkpoint advances to the current time — so the
checkpoint moves exactly when at least one full hour has elapsed. -/
theorem apply_decay_lazy_spec (now : Int) (s : RepState) :
    (((now - s.last_decay_check : Int) : ℝ) / 3600 < 1 →
      ReputationManager.apply_decay now s = s)
    ∧ ∀ T : ℝ, T = ((now - s.last_decay_check : Int) : ℝ) / 3600 → 1 ≤ T →
      ReputationManager.apply_decay now s
        = { s with
            score := max MIN_REPUTATION
              (s.score * Real.rpow (1 - REPUTATION_DECAY_RATE) T),
            last_decay_check := now } := by
  constructor
  · intro h
    simp only [ReputationManager.apply_decay]
    rw [if_neg (not_le.mpr h)]
  · rintro T rfl h1
    simp only [ReputationManager.apply_decay]
    rw [if_pos h1]

/-- A concrete reputation state (streak 4, last activity on day 10, decay
checkpoint at time 0). -/
def sampleRepState : RepState :=
  { robot_did := "d", score := 100, history := [], current_streak := 4,
    longest_streak := 4, last_activity_date := some 10, streak_start_date := some 7,
    total_active_days := 4, last_decay_check := 0, positive_events := 0,
    negative_events := 0, total_earned := 0, total_lost := 0 }

/-- Witness for C6: after 1800 s (half an hour) the state is unchanged; after
7200 s (T = 2 hours) the score is multiplied by (1 - rate)^2 and the
checkpoint advances. -/
theorem apply_decay_lazy_spec_witness :
    ReputationManager.apply_decay 1800 sampleRepState = sampleRepState
    ∧ ReputationManager.apply_decay 7200 sampleRepState
      = { sampleRepState with
          score := max MIN_REPUTATION
            (sampleRepState.score * Real.rpow (1 - REPUTATION_DECAY_RATE) 2),
          last_decay_check := 7200 } :=
  ⟨(apply_decay_lazy_spec 1800 sampleRepState).1 (by norm_num [sampleRepState]),
   (apply_decay_lazy_spec 7200 sampleRepState).2 2 (by norm_num [sampleRepState])
    (by norm_num)⟩

/-- C7: streak bookkeeping across two recordEvent calls.  With the previous
activity on calendar day d: a call on the same day leaves the current streak
unchanged; a call exactly one day later increments the streak and the total
active days by one; a call that skips at least one day resets the streak
to 1. -/
theorem record_event_streak_spec (now today : Int) (e : ReputationEvent)
    (reason : String) (mult : ℝ) (md : List (String × String)) (s : RepState)
    (d : Int) (hlast : s.last_activity_date = some d) :
    (today = d →
      (ReputationManager.record_event now today e reason mult md s).1.current_streak
        = s.current_streak)
    ∧ (today = d + 1 →
      (ReputationManager.record_event now today e reason mult md s).1.current_streak
          = s.current_streak + 1
        ∧ (ReputationManager.record_event now today e reason mult md s
            ).1.total_active_days
          = s.total_active_days + 1)
    ∧ (d + 2 ≤ today →
      (ReputationManager.record_event now today e reason mult md s).1.current_streak
        = 1) := by
  refine ⟨?_, ?_, ?_⟩
  · intro hd
    subst hd
    simp only [ReputationManager.record_event]
    rw [update_streak_same_day _ _ (by simp [apply_decay_last_activity, hlast])]
    simp [apply_decay_current_streak]
  · intro hd
    constructor
    · simp only [ReputationManager.record_event]
      rw [update_streak_consecutive_streak today _ d
        (by simp [apply_decay_last_activity, hlast]) hd]
      simp [apply_decay_current_streak]
    · simp only [ReputationManager.record_event]
      rw [update_streak_consecutive_days today _ d
        (by simp [apply_decay_last_activity, hlast]) hd]
      simp [apply_decay_total_days]
  · intro hgap
    simp only [ReputationManager.record_event]
    rw [update_streak_gap today _ d (by simp [apply_decay_last_activity, hlast]) hgap]

/-- Witness for C7 at the concrete state with last activity on day 10: a call
on day 10 keeps streak 4, a call on day 11 moves to streak 5 and 5 active
days, a call on day 13 resets the streak to 1. -/
theorem record_event_streak_spec_witness :
    (ReputationManager.record_event 0 10 ReputationEvent.proof_verified "" 1 []
        sampleRepState).1.current_streak = sampleRepState.current_streak
    ∧ ((ReputationManager.record_event 0 11 ReputationEvent.proof_verified "" 1 []
          sampleRepState).1.current_streak = sampleRepState.current_streak + 1
        ∧ (ReputationManager.record_event 0 11 ReputationEvent.proof_verified "" 1 []
            sampleRepState).1.total_active_days
          = sampleRepState.total_active_days + 1)
    ∧ (ReputationManager.record_event 0 13 ReputationEvent.proof_verified "" 1 []
        sampleRepState).1.current_streak = 1 :=
  ⟨(record_event_streak_spec 0 10 ReputationEvent.proof_verified "" 1 []
      sampleRepState 10 rfl).1 rfl,
   (record_event_streak_spec 0 11 ReputationEvent.proof_verified "" 1 []
      sampleRepState 10 rfl).2.1 (by norm_num),
   (record_event_streak_spec 0 13 ReputationEvent.proof_verified "" 1 []
      sampleRepState 10 rfl).2.2 (by norm_num)⟩

end RoboID
